import Mathlib

/-!
Shallow embedding of the payment lifecycle and webhook-reconciliation
subsystem of the videosbot repository (src/bot.py, src/oxapay.py).

Modelling conventions:
* The sqlite database (tables `payments`, `purchases`) is a pair of lists;
  `track_id TEXT UNIQUE` is enforced in `payment_insert`.
* Python string statuses are kept as `String` ("pending", "completed",
  "expired", "failed"); reported webhook statuses likewise ("Paid", ...).
* `datetime.now()` timestamps are an explicit `now : Nat` parameter.
* REAL amounts are modelled as `Rat` (only stored and compared, never
  subjected to float rounding in the code paths under study).
* Telegram sends (`bot_app.bot.send_message`) are modelled by a `sendOk`
  flag (the call either succeeds or raises) plus an `Effect` trace of the
  messages actually delivered.
* The JSON configuration file `video_links.json` is a `Links` record:
  `links.get("prices", DEFAULT)` and `links.get("package_status", {})`
  become an `Option` field with a default, `links["packages"]` (a raw
  indexing that can raise `KeyError`) becomes an `Option` field whose
  absence is an error.
* Python functions that can raise to their caller return `Except String`;
  functions whose body catches every exception (`add_payment`,
  `update_payment_status`) are total.
-/

namespace VideosBot

/-- Row of the `payments` table (src/bot.py, `init_database`). -/
structure Payment where
  track_id : String
  user_id : Nat
  package : String
  amount : Rat
  currency : String
  status : String
  created_at : Nat
  completed_at : Option Nat
deriving DecidableEq

/-- Row of the `purchases` table (src/bot.py, `init_database`). -/
structure Purchase where
  user_id : Nat
  package : String
  amount : Rat
  purchased_at : Nat
  invite_link : String
deriving DecidableEq

/-- The sqlite database state (payments and purchases tables). -/
structure DB where
  payments : List Payment
  purchases : List Purchase
deriving DecidableEq

/-- Contents of `video_links.json` as read by `load_json`. -/
structure Links where
  prices : Option (List (String × Rat))
  packages : Option (List (String × String))
  package_status : List (String × Bool)
deriving DecidableEq

/-- Python dict lookup on a string-keyed association list. -/
def lookupStr {α : Type} : List (String × α) → String → Option α
  | [], _ => none
  | (k, v) :: rest, key => if k == key then some v else lookupStr rest key

/-- Messages delivered / external calls made, in order. -/
inductive Effect where
  | accessMsg (user_id : Nat) (package : String) (invite : String)
  | expiryMsg (user_id : Nat) (package : String)
  | gatewayCall (user_id : Nat) (package : String) (amount : Rat)
  | invoiceMsg (user_id : Nat) (package : String) (amount : Rat) (payment_url : String)
  | failMsg (user_id : Nat)
  | watcherScheduled (track_id : String)
deriving DecidableEq

/-- Hard-coded fallback of `get_prices` (src/bot.py lines 238-243). -/
def defaultPrices : List (String × Rat) :=
  [("100_videos", 15), ("1000_videos", 35), ("5000_videos", 49), ("10000_videos_bot", 75)]

/-- Model of `get_prices()` (src/bot.py): `links.get("prices", DEFAULT)`. -/
def get_prices (links : Links) : List (String × Rat) :=
  links.prices.getD defaultPrices

/-- Keys of `PACKAGE_NAMES` (src/bot.py lines 246-251), in order. -/
def packageKeys : List String :=
  ["100_videos", "1000_videos", "5000_videos", "10000_videos_bot"]

/-- The packages offered by `show_packages` (src/bot.py lines 420-445):
a button is added only when `package_status.get(pkg_key, True)` holds. -/
def show_packages (links : Links) : List String :=
  packageKeys.filter (fun pkg => (lookupStr links.package_status pkg).getD true)

/-- The raw `INSERT INTO payments` of `add_payment`: raises
`IntegrityError` when the UNIQUE `track_id` already exists, otherwise
inserts a fresh row with status "pending" and NULL `completed_at`. -/
def payment_insert (db : DB) (track_id : String) (user_id : Nat) (package : String)
    (amount : Rat) (currency : String) (now : Nat) : Except String DB :=
  if db.payments.any (fun p => p.track_id == track_id) then
    Except.error "UNIQUE constraint failed: payments.track_id"
  else
    Except.ok { db with payments :=
      db.payments ++ [⟨track_id, user_id, package, amount, currency, "pending", now, none⟩] }

/-- Model of `add_payment` (src/bot.py lines 107-119): the INSERT is wrapped in
`try/except Exception` that only logs, so the caller always gets a normal
return; the second component is the logged error, if any. -/
def add_payment (db : DB) (track_id : String) (user_id : Nat) (package : String)
    (amount : Rat) (currency : String) (now : Nat) : DB × Option String :=
  match payment_insert db track_id user_id package amount currency now with
  | Except.ok db' => (db', none)
  | Except.error e => (db, some ("Error adding payment: " ++ e))

/-- Model of `update_payment_status` (src/bot.py lines 121-133): an unconditional
`UPDATE payments SET status = ?, completed_at = ? WHERE track_id = ?` —
no check of the current status. -/
def update_payment_status (db : DB) (track_id : String) (status : String) (now : Nat) : DB :=
  { db with payments := db.payments.map (fun p =>
      if p.track_id == track_id then { p with status := status, completed_at := some now } else p) }

/-- Model of `get_payment` (src/bot.py lines 135-155): `SELECT * FROM payments
WHERE track_id = ?`, first row or `None`. -/
def get_payment (db : DB) (track_id : String) : Option Payment :=
  db.payments.find? (fun p => p.track_id == track_id)

/-- Model of `add_purchase` (src/bot.py lines 157-169): append-only insert into
`purchases`. -/
def add_purchase (db : DB) (user_id : Nat) (package : String) (amount : Rat)
    (invite_link : String) (now : Nat) : DB :=
  { db with purchases := db.purchases ++ [⟨user_id, package, amount, now, invite_link⟩] }

/-- Model of `deliver_access` (src/bot.py lines 635-661).
`links["packages"]` is outside any try/except, so a missing "packages"
key raises to the caller (`Except.error`). An empty invite link logs and
returns. Inside the try block: the Telegram send (modelled by `sendOk`),
then `amount = get_prices()[package]`, then `add_purchase`; any failure
there is caught and logged, so the purchase is skipped. -/
def deliver_access (links : Links) (db : DB) (user_id : Nat) (package : String)
    (sendOk : Bool) (now : Nat) : Except String (DB × List Effect) :=
  match links.packages with
  | none => Except.error "KeyError: packages"
  | some pkgs =>
    let invite := (lookupStr pkgs package).getD ""
    if invite == "" then
      Except.ok (db, [])
    else if sendOk then
      match lookupStr (get_prices links) package with
      | none => Except.ok (db, [Effect.accessMsg user_id package invite])
      | some amount =>
        Except.ok (add_purchase db user_id package amount invite now,
          [Effect.accessMsg user_id package invite])
    else
      Except.ok (db, [])

/-- Model of `check_payment_expiry` (src/bot.py lines 664-687): after the 30-minute
sleep, re-read the payment; when still "pending", send the expiry notice
and only then call `update_payment_status(track_id, "expired")` — both
inside one try block, so a failed send skips the status write. -/
def check_payment_expiry (db : DB) (user_id : Nat) (track_id : String) (package : String)
    (sendOk : Bool) (now : Nat) : DB × List Effect :=
  match get_payment db track_id with
  | some p =>
    if p.status == "pending" then
      if sendOk then
        (update_payment_status db track_id "expired" now, [Effect.expiryMsg user_id package])
      else
        (db, [])
    else
      (db, [])
  | none => (db, [])

/-- The invoice data returned by a successful `create_oxapay_invoice`. -/
structure GwInvoice where
  track_id : String
  payment_url : String
deriving DecidableEq

/-- Model of `initiate_payment` (src/bot.py lines 477-522).
`amount = prices[package]` raises `KeyError` for an unknown package.
There is no `package_status` check anywhere in this function. The
gateway call (`create_oxapay_invoice`, whose outcome is the `gw`
parameter — `none` models the `None`/failure return) always happens;
on success `add_payment` stores the pending intent, the invoice message
is shown and the expiry watcher task is scheduled. -/
def initiate_payment (links : Links) (gw : Option GwInvoice) (user_id : Nat)
    (package : String) (now : Nat) (db : DB) : Except String (DB × List Effect) :=
  match lookupStr (get_prices links) package with
  | none => Except.error "KeyError: package"
  | some amount =>
    match gw with
    | some inv =>
      Except.ok ((add_payment db inv.track_id user_id package amount "USD" now).1,
        [Effect.gatewayCall user_id package amount,
         Effect.invoiceMsg user_id package amount inv.payment_url,
         Effect.watcherScheduled inv.track_id])
    | none =>
      Except.ok (db, [Effect.gatewayCall user_id package amount, Effect.failMsg user_id])

/-- FastAPI response of the webhook endpoint: a 200 body with a status
tag, or an `HTTPException` with a status code. -/
inductive WebhookResponse where
  | ok (tag : String)
  | err (code : Nat)
deriving DecidableEq

/-- An incoming webhook request: either `request.json()` raises, or a
payload with optional `trackId` and `status` fields. The handler reads
no other field of the request (in particular, no secret). -/
inductive WebhookRequest where
  | badJson
  | payload (trackId : Option String) (status : Option String)
deriving DecidableEq

/-- Model of `oxapay_webhook` (src/bot.py lines 690-748).
JSON failure is caught by the outer `except Exception` → 500; missing
`trackId` → `HTTPException 400`; unknown payment → "ignored"; already
"completed" → "already_processed"; "Paid"/"Confirming" → status becomes
"completed" then `deliver_access` (an exception escaping it → 500 with
the status write already committed); "Expired" → "expired"; "Failed" →
"failed"; any other reported status → "pending", no state change. -/
def oxapay_webhook (links : Links) (sendOk : Bool) (now : Nat)
    (req : WebhookRequest) (db : DB) : WebhookResponse × DB × List Effect :=
  match req with
  | WebhookRequest.badJson => (WebhookResponse.err 500, db, [])
  | WebhookRequest.payload none _ => (WebhookResponse.err 400, db, [])
  | WebhookRequest.payload (some track_id) status =>
    match get_payment db track_id with
    | none => (WebhookResponse.ok "ignored", db, [])
    | some payment =>
      if payment.status == "completed" then
        (WebhookResponse.ok "already_processed", db, [])
      else if status == some "Paid" || status == some "Confirming" then
        let db1 := update_payment_status db track_id "completed" now
        match deliver_access links db1 payment.user_id payment.package sendOk now with
        | Except.error _ => (WebhookResponse.err 500, db1, [])
        | Except.ok (db2, effs) => (WebhookResponse.ok "success", db2, effs)
      else if status == some "Expired" then
        (WebhookResponse.ok "expired", update_payment_status db track_id "expired" now, [])
      else if status == some "Failed" then
        (WebhookResponse.ok "failed", update_payment_status db track_id "failed" now, [])
      else
        (WebhookResponse.ok "pending", db, [])

/-- Model of `verify_webhook_signature` (src/oxapay.py lines 122-142): `False`
when either secret is falsy (empty), otherwise exact string equality.
Defined in the repository but never called by `oxapay_webhook`. -/
def verify_webhook_signature (webhook_secret received_secret : String) : Bool :=
  if webhook_secret == "" || received_secret == "" then
    false
  else
    webhook_secret == received_secret

/-!
Interleaving model of the asyncio concurrency between a "Paid" webhook
delivery and the expiry watcher for the same `track_id`. Each task is cut
into the atomic blocks the Python event loop actually runs between
`await` points:

`oxapay_webhook` with status "Paid" suspends only inside
`deliver_access`, at `await bot_app.bot.send_message`:
  block 1 — `get_payment`, the completed-check, `update_payment_status
  (…, "completed")`, reading `video_links.json`, the invite-link lookup,
  and issuing the send;
  block 2 — `amount = get_prices()[package]` and `add_purchase`.

`check_payment_expiry` (after its sleep) suspends at its own
`await bot_app.bot.send_message`:
  block 1 — `get_payment`, the pending-check, and issuing the expiry
  notice; block 2 — `update_payment_status(…, "expired")`.

Both sends are assumed to succeed here. No lock or queue exists in the
source, so any interleaving of these blocks is a legal execution.
-/

/-- Shared mutable state: the database plus the delivered messages. -/
structure SysState where
  db : DB
  effects : List Effect
deriving DecidableEq

/-- Program counter of the webhook task (status "Paid"). -/
inductive WebTask where
  | start
  | sending (user_id : Nat) (package : String) (invite : String)
  | finished (resp : WebhookResponse)
deriving DecidableEq

/-- Program counter of the expiry-watcher task. -/
inductive ExpTask where
  | start
  | sending
  | finished
deriving DecidableEq

/-- One atomic block of the "Paid" webhook handler. -/
def webStep (links : Links) (track_id : String) (now : Nat) :
    WebTask → SysState → WebTask × SysState
  | WebTask.start, s =>
    match get_payment s.db track_id with
    | none => (WebTask.finished (WebhookResponse.ok "ignored"), s)
    | some payment =>
      if payment.status == "completed" then
        (WebTask.finished (WebhookResponse.ok "already_processed"), s)
      else
        let db1 := update_payment_status s.db track_id "completed" now
        match links.packages with
        | none => (WebTask.finished (WebhookResponse.err 500), { s with db := db1 })
        | some pkgs =>
          let invite := (lookupStr pkgs payment.package).getD ""
          if invite == "" then
            (WebTask.finished (WebhookResponse.ok "success"), { s with db := db1 })
          else
            (WebTask.sending payment.user_id payment.package invite,
             { db := db1,
               effects := s.effects ++ [Effect.accessMsg payment.user_id payment.package invite] })
  | WebTask.sending user_id package invite, s =>
    match lookupStr (get_prices links) package with
    | none => (WebTask.finished (WebhookResponse.ok "success"), s)
    | some amount =>
      (WebTask.finished (WebhookResponse.ok "success"),
       { s with db := add_purchase s.db user_id package amount invite now })
  | WebTask.finished r, s => (WebTask.finished r, s)

/-- One atomic block of the expiry watcher. -/
def expStep (track_id : String) (user_id : Nat) (package : String) (now : Nat) :
    ExpTask → SysState → ExpTask × SysState
  | ExpTask.start, s =>
    match get_payment s.db track_id with
    | some p =>
      if p.status == "pending" then
        (ExpTask.sending, { s with effects := s.effects ++ [Effect.expiryMsg user_id package] })
      else
        (ExpTask.finished, s)
    | none => (ExpTask.finished, s)
  | ExpTask.sending, s =>
    (ExpTask.finished, { s with db := update_payment_status s.db track_id "expired" now })
  | ExpTask.finished, s => (ExpTask.finished, s)

/-- Which task the event loop resumes next. -/
inductive Tid where
  | web
  | exp
deriving DecidableEq

/-- Run both tasks under an explicit schedule (list of resumptions). -/
def runSched (links : Links) (track_id : String) (user_id : Nat) (package : String)
    (now : Nat) : List Tid → WebTask × ExpTask × SysState → WebTask × ExpTask × SysState
  | [], st => st
  | t :: ts, (w, e, s) =>
    match t with
    | Tid.web =>
      let (w', s') := webStep links track_id now w s
      runSched links track_id user_id package now ts (w', e, s')
    | Tid.exp =>
      let (e', s') := expStep track_id user_id package now e s
      runSched links track_id user_id package now ts (w, e', s')

/-!
Helper lemmas about the embedded operations, shared by the claim
theorems below.
-/

theorem lookupStr_eq_find? {α : Type} (l : List (String × α)) (key : String) :
    lookupStr l key = (l.find? (fun kv => kv.1 == key)).map Prod.snd := by
  induction l with
  | nil => rfl
  | cons kv rest ih =>
    by_cases h : kv.1 == key
    · simp [lookupStr, List.find?, h]
    · simp only [lookupStr, List.find?] at *
      rw [if_neg (by simpa using h)]
      simp [h, ih]

theorem find?_update_self (l : List Payment) (t s : String) (now : Nat) :
    (l.map (fun p =>
        if p.track_id == t then { p with status := s, completed_at := some now } else p)).find?
        (fun p => p.track_id == t)
      = (l.find? (fun p => p.track_id == t)).map
          (fun p => { p with status := s, completed_at := some now }) := by
  induction l with
  | nil => rfl
  | cons p ps ih =>
    by_cases h : (p.track_id == t) = true
    · have h' : (fun q : Payment => q.track_id == t)
          { p with status := s, completed_at := some now } = true := h
      have h'' : (fun q : Payment => q.track_id == t) p = true := h
      rw [List.map_cons, if_pos h,
          List.find?_cons_of_pos (p := fun q : Payment => q.track_id == t) _ h',
          List.find?_cons_of_pos (p := fun q : Payment => q.track_id == t) _ h'']
      rfl
    · have h'' : ¬ (fun q : Payment => q.track_id == t) p = true := h
      rw [List.map_cons, if_neg h,
          List.find?_cons_of_neg (p := fun q : Payment => q.track_id == t) _ h'',
          List.find?_cons_of_neg (p := fun q : Payment => q.track_id == t) _ h'']
      exact ih

theorem get_payment_update_self (db : DB) (t s : String) (now : Nat) :
    get_payment (update_payment_status db t s now) t
      = (get_payment db t).map (fun p => { p with status := s, completed_at := some now }) := by
  simpa [get_payment, update_payment_status] using find?_update_self db.payments t s now

theorem get_payment_add_purchase (db : DB) (u : Nat) (pkg : String) (a : Rat)
    (l : String) (now : Nat) (track : String) :
    get_payment (add_purchase db u pkg a l now) track = get_payment db track := rfl

theorem purchases_update_payment_status (db : DB) (t s : String) (now : Nat) :
    (update_payment_status db t s now).purchases = db.purchases := rfl

theorem payments_add_purchase (db : DB) (u : Nat) (pkg : String) (a : Rat)
    (l : String) (now : Nat) :
    (add_purchase db u pkg a l now).payments = db.payments := rfl

theorem any_track_eq_false (db : DB) (t : String) (h : get_payment db t = none) :
    db.payments.any (fun p => p.track_id == t) = false := by
  rw [List.any_eq_false]
  intro p hp
  have := List.find?_eq_none.mp h p hp
  simpa using this

theorem any_track_eq_true (db : DB) (t : String) (h : (get_payment db t).isSome) :
    db.payments.any (fun p => p.track_id == t) = true := by
  rw [List.any_eq_true]
  obtain ⟨p, hp⟩ := Option.isSome_iff_exists.mp h
  have hp' : db.payments.find? (fun p => p.track_id == t) = some p := hp
  refine ⟨p, List.mem_of_find?_eq_some hp', ?_⟩
  have hsat := List.find?_some hp'
  simpa using hsat

theorem deliver_access_payments (links : Links) (d : DB) (u : Nat) (pkg : String)
    (so : Bool) (now : Nat) (d2 : DB) (effs : List Effect)
    (h : deliver_access links d u pkg so now = Except.ok (d2, effs)) :
    d2.payments = d.payments := by
  cases hpk : links.packages with
  | none =>
    simp only [deliver_access, hpk] at h
    cases h
  | some pkgs =>
    simp only [deliver_access, hpk] at h
    by_cases hinv : ((lookupStr pkgs pkg).getD "" == "")
    · rw [if_pos hinv] at h
      cases h
      rfl
    · rw [if_neg hinv] at h
      cases so with
      | false =>
        simp only [Bool.false_eq_true, if_false, Except.ok.injEq, Prod.mk.injEq] at h
        rw [← h.1]
      | true =>
        simp only [if_true] at h
        cases hpr : lookupStr (get_prices links) pkg with
        | none =>
          rw [hpr] at h
          cases h
          rfl
        | some amount =>
          rw [hpr] at h
          cases h
          rfl

theorem deliver_access_ok (links : Links) (pkgs : List (String × String)) (d : DB) (u : Nat)
    (pkg : String) (so : Bool) (now : Nat) (hpk : links.packages = some pkgs) :
    ∃ d2 effs, deliver_access links d u pkg so now = Except.ok (d2, effs) := by
  simp only [deliver_access, hpk]
  by_cases hinv : ((lookupStr pkgs pkg).getD "" == "")
  · exact ⟨d, [], by rw [if_pos hinv]⟩
  · cases so with
    | false =>
      refine ⟨d, [], ?_⟩
      rw [if_neg hinv]
      simp
    | true =>
      cases hpr : lookupStr (get_prices links) pkg with
      | none =>
        refine ⟨d, [Effect.accessMsg u pkg ((lookupStr pkgs pkg).getD "")], ?_⟩
        rw [if_neg hinv]
        simp [hpr]
      | some amount =>
        refine ⟨add_purchase d u pkg amount ((lookupStr pkgs pkg).getD "") now,
                [Effect.accessMsg u pkg ((lookupStr pkgs pkg).getD "")], ?_⟩
        rw [if_neg hinv]
        simp [hpr]

theorem webhook_completed_noop (links : Links) (sendOk : Bool) (now : Nat) (db : DB)
    (t : String) (st : Option String) (p : Payment)
    (hp : get_payment db t = some p) (hc : p.status = "completed") :
    oxapay_webhook links sendOk now (WebhookRequest.payload (some t) st) db
      = (WebhookResponse.ok "already_processed", db, []) := by
  simp only [oxapay_webhook, hp, hc]
  rw [if_pos (by decide)]

theorem watcher_nonpending_noop (db : DB) (u : Nat) (t pkg : String) (sendOk : Bool)
    (now : Nat) (p : Payment) (hp : get_payment db t = some p) (hnp : p.status ≠ "pending") :
    check_payment_expiry db u t pkg sendOk now = (db, []) := by
  simp only [check_payment_expiry, hp]
  rw [if_neg (by simpa using hnp)]

/-- Full run of a "Paid" webhook delivery against a pending intent, with
a configured invite link and a present catalog price, and a successful
send: the intent is marked completed, the access message is sent, and
the purchase is recorded at the catalog price. -/
theorem webhook_paid_pending (links : Links) (pkgs : List (String × String)) (db : DB)
    (t invite : String) (p : Payment) (amount : Rat) (now : Nat)
    (hp : get_payment db t = some p) (hpend : p.status = "pending")
    (hpkgs : links.packages = some pkgs)
    (hinv : lookupStr pkgs p.package = some invite) (hne : invite ≠ "")
    (hprice : lookupStr (get_prices links) p.package = some amount) :
    oxapay_webhook links true now (WebhookRequest.payload (some t) (some "Paid")) db
      = (WebhookResponse.ok "success",
         add_purchase (update_payment_status db t "completed" now) p.user_id p.package amount
           invite now,
         [Effect.accessMsg p.user_id p.package invite]) := by
  simp only [oxapay_webhook, hp, hpend]
  rw [if_neg (by decide), if_pos (by decide)]
  simp only [deliver_access, hpkgs, hinv, Option.getD_some]
  rw [if_neg (by simpa using hne)]
  simp [hprice]

/-!
Concrete fixtures used by counterexamples and witnesses.
-/

/-- A catalog with one configured invite link and `100_videos` disabled. -/
def linksA : Links :=
  { prices := none,
    packages := some [("100_videos", "https://invite")],
    package_status := [("100_videos", false)] }

/-- A freshly created pending intent for user 7, package 100_videos. -/
def payA : Payment :=
  ⟨"t1", 7, "100_videos", 15, "USD", "pending", 0, none⟩

/-- Database holding just the pending intent `payA`. -/
def dbA : DB := ⟨[payA], []⟩

/-- Same intent after it reached the terminal state "expired". -/
def dbExpired : DB := ⟨[{ payA with status := "expired", completed_at := some 3 }], []⟩

/-- Same intent after it reached the terminal state "completed". -/
def dbCompleted : DB := ⟨[{ payA with status := "completed", completed_at := some 3 }], []⟩

/-- The empty database. -/
def dbEmpty : DB := ⟨[], []⟩

/-- The catalog after the admin raised the price of 100_videos to 20. -/
def linksB : Links :=
  { prices := some [("100_videos", 20)],
    packages := some [("100_videos", "https://invite")],
    package_status := [] }

/-!
Claim theorems.
-/

/-- C1 counterexample: the claim says no call moves an intent out of a
terminal state, but for an intent whose stored status is the terminal
"expired", a webhook delivery reporting "Paid" rewrites the status to
"completed" (the handler only guards the "completed" state, and
`update_payment_status` is an unconditional UPDATE). -/
theorem C1_counterexample :
    (get_payment dbExpired "t1").map Payment.status = some "expired" ∧
    (get_payment
        (oxapay_webhook linksA true 9
          (WebhookRequest.payload (some "t1") (some "Paid")) dbExpired).2.1
        "t1").map Payment.status = some "completed" := by
  constructor <;> rfl

/-- C1 (amended): only the "completed" state is protected. Once the
stored status is "completed", any further webhook delivery returns
"already_processed" and changes nothing, and the expiry watcher is a
no-op on every non-"pending" status; but intents in "expired" or
"failed" state are not protected from further transitions. -/
theorem C1_completed_protected :
    (∀ (links : Links) (sendOk : Bool) (now : Nat) (db : DB) (t : String)
        (st : Option String) (p : Payment),
      get_payment db t = some p → p.status = "completed" →
      oxapay_webhook links sendOk now (WebhookRequest.payload (some t) st) db
        = (WebhookResponse.ok "already_processed", db, [])) ∧
    (∀ (db : DB) (u : Nat) (t pkg : String) (sendOk : Bool) (now : Nat) (p : Payment),
      get_payment db t = some p → p.status ≠ "pending" →
      check_payment_expiry db u t pkg sendOk now = (db, [])) := by
  exact ⟨fun links sendOk now db t st p hp hc =>
      webhook_completed_noop links sendOk now db t st p hp hc,
    fun db u t pkg sendOk now p hp hnp =>
      watcher_nonpending_noop db u t pkg sendOk now p hp hnp⟩

/-- C1 witness: the protection applied at concrete inputs — a completed
intent answered with "already_processed" and left unchanged, and the
watcher a no-op on an expired intent. -/
theorem C1_completed_protected_witness :
    oxapay_webhook linksA true 9 (WebhookRequest.payload (some "t1") (some "Paid")) dbCompleted
      = (WebhookResponse.ok "already_processed", dbCompleted, []) ∧
    check_payment_expiry dbExpired 7 "t1" "100_videos" true 30 = (dbExpired, []) :=
  ⟨C1_completed_protected.1 linksA true 9 dbCompleted "t1" (some "Paid")
      { payA with status := "completed", completed_at := some 3 } rfl rfl,
   C1_completed_protected.2 dbExpired 7 "t1" "100_videos" true 30
      { payA with status := "expired", completed_at := some 3 } rfl (by decide)⟩

/-- C2: reconciling "Paid" twice against a pending intent (with a
configured invite link and catalog price, and a working notification
channel) records exactly one purchase and sends exactly one access
message; the second delivery answers "already_processed" and changes
nothing. -/
theorem C2_reconcile_paid_idempotent (links : Links) (pkgs : List (String × String))
    (db : DB) (t invite : String) (p : Payment) (amount : Rat) (now now' : Nat)
    (hp : get_payment db t = some p) (hpend : p.status = "pending")
    (hpkgs : links.packages = some pkgs)
    (hinv : lookupStr pkgs p.package = some invite) (hne : invite ≠ "")
    (hprice : lookupStr (get_prices links) p.package = some amount) :
    let r1 := oxapay_webhook links true now (WebhookRequest.payload (some t) (some "Paid")) db
    let r2 := oxapay_webhook links true now'
      (WebhookRequest.payload (some t) (some "Paid")) r1.2.1
    r1.1 = WebhookResponse.ok "success" ∧
    r1.2.1.purchases = db.purchases ++ [⟨p.user_id, p.package, amount, now, invite⟩] ∧
    r1.2.2 = [Effect.accessMsg p.user_id p.package invite] ∧
    r2 = (WebhookResponse.ok "already_processed", r1.2.1, []) := by
  intro r1 r2
  have hrun := webhook_paid_pending links pkgs db t invite p amount now
    hp hpend hpkgs hinv hne hprice
  have hr1 : r1 = (WebhookResponse.ok "success",
      add_purchase (update_payment_status db t "completed" now) p.user_id p.package amount
        invite now,
      [Effect.accessMsg p.user_id p.package invite]) := hrun
  refine ⟨by rw [hr1], ?_, by rw [hr1], ?_⟩
  · rw [hr1]
    simp [add_purchase, update_payment_status]
  · have hget : get_payment r1.2.1 t
        = some { p with status := "completed", completed_at := some now } := by
      rw [hr1]
      rw [get_payment_add_purchase, get_payment_update_self, hp]
      rfl
    show oxapay_webhook links true now' (WebhookRequest.payload (some t) (some "Paid")) r1.2.1
      = (WebhookResponse.ok "already_processed", r1.2.1, [])
    exact webhook_completed_noop links true now' r1.2.1 t (some "Paid") _ hget rfl

/-- C2 witness: the double delivery evaluated on the concrete pending
intent `dbA`. -/
theorem C2_reconcile_paid_idempotent_witness :
    let r1 := oxapay_webhook linksA true 5 (WebhookRequest.payload (some "t1") (some "Paid")) dbA
    let r2 := oxapay_webhook linksA true 6
      (WebhookRequest.payload (some "t1") (some "Paid")) r1.2.1
    r1.1 = WebhookResponse.ok "success" ∧
    r1.2.1.purchases = dbA.purchases ++ [⟨7, "100_videos", 15, 5, "https://invite"⟩] ∧
    r1.2.2 = [Effect.accessMsg 7 "100_videos" "https://invite"] ∧
    r2 = (WebhookResponse.ok "already_processed", r1.2.1, []) :=
  C2_reconcile_paid_idempotent linksA [("100_videos", "https://invite")] dbA "t1"
    "https://invite" payA 15 5 6 rfl rfl rfl rfl (by decide) rfl

/-- C3: for a known, not-yet-completed intent the webhook maps the
reported status exactly as claimed — "Paid"/"Confirming" mark the intent
completed and invoke `deliver_access`, answering "success"; "Expired"
marks it expired; "Failed" marks it failed; any other reported status
changes nothing and answers "pending"; a request without `trackId` gets
HTTP 400 and a request whose JSON parse fails (an unexpected internal
failure) gets HTTP 500. -/
theorem C3_status_mapping (links : Links) (pkgs : List (String × String)) (db : DB)
    (t : String) (p : Payment) (st : Option String) (sendOk : Bool) (now : Nat)
    (hp : get_payment db t = some p) (hnc : p.status ≠ "completed")
    (hpkgs : links.packages = some pkgs) :
    ((st = some "Paid" ∨ st = some "Confirming") →
      ∃ db2 effs,
        deliver_access links (update_payment_status db t "completed" now) p.user_id p.package
          sendOk now = Except.ok (db2, effs) ∧
        oxapay_webhook links sendOk now (WebhookRequest.payload (some t) st) db
          = (WebhookResponse.ok "success", db2, effs) ∧
        (get_payment db2 t).map Payment.status = some "completed") ∧
    (st = some "Expired" →
      oxapay_webhook links sendOk now (WebhookRequest.payload (some t) st) db
        = (WebhookResponse.ok "expired", update_payment_status db t "expired" now, [])) ∧
    (st = some "Failed" →
      oxapay_webhook links sendOk now (WebhookRequest.payload (some t) st) db
        = (WebhookResponse.ok "failed", update_payment_status db t "failed" now, [])) ∧
    (st ≠ some "Paid" → st ≠ some "Confirming" → st ≠ some "Expired" → st ≠ some "Failed" →
      oxapay_webhook links sendOk now (WebhookRequest.payload (some t) st) db
        = (WebhookResponse.ok "pending", db, [])) ∧
    (∀ st' : Option String,
      oxapay_webhook links sendOk now (WebhookRequest.payload none st') db
        = (WebhookResponse.err 400, db, [])) ∧
    oxapay_webhook links sendOk now WebhookRequest.badJson db
      = (WebhookResponse.err 500, db, []) := by
  have hguard : (p.status == "completed") = false := by
    rw [beq_eq_false_iff_ne]
    exact hnc
  refine ⟨?_, ?_, ?_, ?_, fun st' => rfl, rfl⟩
  · intro hst
    obtain ⟨db2, effs, hdel⟩ := deliver_access_ok links pkgs
      (update_payment_status db t "completed" now) p.user_id p.package sendOk now hpkgs
    refine ⟨db2, effs, hdel, ?_, ?_⟩
    · rcases hst with h | h <;> subst h <;>
      · simp only [oxapay_webhook, hp, hguard, Bool.false_eq_true, if_false]
        rw [if_pos (by decide), hdel]
    · have hpay : db2.payments = (update_payment_status db t "completed" now).payments :=
        deliver_access_payments links _ p.user_id p.package sendOk now db2 effs hdel
      have hsame : get_payment db2 t
          = get_payment (update_payment_status db t "completed" now) t := by
        simp [get_payment, hpay]
      rw [hsame, get_payment_update_self, hp]
      rfl
  · intro hst
    subst hst
    simp only [oxapay_webhook, hp, hguard, Bool.false_eq_true, if_false]
    rw [if_neg (by decide), if_pos (by decide)]
  · intro hst
    subst hst
    simp only [oxapay_webhook, hp, hguard, Bool.false_eq_true, if_false]
    rw [if_neg (by decide), if_neg (by decide), if_pos (by decide)]
  · intro h1 h2 h3 h4
    have e1 : (st == some "Paid") = false := by
      rw [beq_eq_false_iff_ne]; exact h1
    have e2 : (st == some "Confirming") = false := by
      rw [beq_eq_false_iff_ne]; exact h2
    have e3 : (st == some "Expired") = false := by
      rw [beq_eq_false_iff_ne]; exact h3
    have e4 : (st == some "Failed") = false := by
      rw [beq_eq_false_iff_ne]; exact h4
    simp [oxapay_webhook, hp, hguard, e1, e2, e3, e4]

/-- C3 witness: the "Expired" branch of the mapping applied to the
concrete pending intent `dbA`. -/
theorem C3_status_mapping_witness :
    oxapay_webhook linksA true 5 (WebhookRequest.payload (some "t1") (some "Expired")) dbA
      = (WebhookResponse.ok "expired", update_payment_status dbA "t1" "expired" 5, []) :=
  ((C3_status_mapping linksA [("100_videos", "https://invite")] dbA "t1" payA
      (some "Expired") true 5 rfl (by decide) rfl).2.1) rfl

/-- C4 counterexample: with package "100_videos" disabled in the catalog
(`package_status` false), `initiate_payment` still makes the gateway
call, writes a pending intent to the ledger, and returns the invoice —
there is no PackageUnavailable error and no disabled-check anywhere in
the function. -/
theorem C4_counterexample :
    (lookupStr linksA.package_status "100_videos").getD true = false ∧
    initiate_payment linksA (some ⟨"t9", "url9"⟩) 7 "100_videos" 0 dbEmpty
      = Except.ok (⟨[⟨"t9", 7, "100_videos", 15, "USD", "pending", 0, none⟩], []⟩,
          [Effect.gatewayCall 7 "100_videos" 15,
           Effect.invoiceMsg 7 "100_videos" 15 "url9",
           Effect.watcherScheduled "t9"]) := by
  constructor <;> rfl

/-- C4 (amended): the disabled flag is honoured only by the menu —
`show_packages` omits a disabled package from the keyboard — while
`initiate_payment` itself performs no such check: invoked with a
disabled package it still makes the Invoice Gateway call and, when the
gateway succeeds, writes the pending intent to the Ledger. -/
theorem C4_no_disabled_check (links : Links) (pkg : String) (amount : Rat) (user_id : Nat)
    (now : Nat) (db : DB) (inv : GwInvoice)
    (hdis : lookupStr links.package_status pkg = some false)
    (hprice : lookupStr (get_prices links) pkg = some amount)
    (hfresh : get_payment db inv.track_id = none) :
    pkg ∉ show_packages links ∧
    initiate_payment links (some inv) user_id pkg now db
      = Except.ok
          ({ db with payments := db.payments ++
              [⟨inv.track_id, user_id, pkg, amount, "USD", "pending", now, none⟩] },
           [Effect.gatewayCall user_id pkg amount,
            Effect.invoiceMsg user_id pkg amount inv.payment_url,
            Effect.watcherScheduled inv.track_id]) := by
  constructor
  · intro hmem
    rw [show_packages, List.mem_filter] at hmem
    have hflag := hmem.2
    rw [hdis] at hflag
    simp at hflag
  · have hany := any_track_eq_false db inv.track_id hfresh
    simp [initiate_payment, hprice, add_payment, payment_insert, hany]

/-- C4 witness: the amended behaviour evaluated at the concrete disabled
package of `linksA` on the empty database. -/
theorem C4_no_disabled_check_witness :
    "100_videos" ∉ show_packages linksA ∧
    initiate_payment linksA (some ⟨"t9", "url9"⟩) 7 "100_videos" 0 dbEmpty
      = Except.ok
          ({ dbEmpty with payments := dbEmpty.payments ++
              [⟨"t9", 7, "100_videos", 15, "USD", "pending", 0, none⟩] },
           [Effect.gatewayCall 7 "100_videos" 15,
            Effect.invoiceMsg 7 "100_videos" 15 "url9",
            Effect.watcherScheduled "t9"]) :=
  C4_no_disabled_check linksA "100_videos" 15 7 0 dbEmpty ⟨"t9", "url9"⟩ rfl rfl rfl

/-- C5 counterexample: inserting a duplicate `track_id` does raise the
UNIQUE-constraint error inside `add_payment`, but the surrounding
`try/except` swallows it — the caller receives a normal return (with the
error only logged) rather than a surfaced DuplicateTrackId failure. -/
theorem C5_counterexample :
    payment_insert dbA "t1" 8 "100_videos" 15 "USD" 1
      = Except.error "UNIQUE constraint failed: payments.track_id" ∧
    add_payment dbA "t1" 8 "100_videos" 15 "USD" 1
      = (dbA, some "Error adding payment: UNIQUE constraint failed: payments.track_id") := by
  constructor <;> rfl

/-- C5 (amended): for an existing `track_id`, `add_payment` leaves the
database (and in particular the existing row) unchanged and merely logs
the duplicate error — nothing is raised to the caller; for a fresh
`track_id` it inserts a row with status "pending" and no log entry. -/
theorem C5_duplicate_logged_not_raised (db : DB) (t : String) (u : Nat) (pkg : String)
    (a : Rat) (c : String) (now : Nat) :
    ((get_payment db t).isSome →
      (add_payment db t u pkg a c now).1 = db ∧
      (add_payment db t u pkg a c now).2.isSome) ∧
    (get_payment db t = none →
      add_payment db t u pkg a c now
        = ({ db with payments := db.payments ++ [⟨t, u, pkg, a, c, "pending", now, none⟩] },
           none)) := by
  constructor
  · intro h
    have hany := any_track_eq_true db t h
    simp [add_payment, payment_insert, hany]
  · intro h
    have hany := any_track_eq_false db t h
    simp [add_payment, payment_insert, hany]

/-- C5 witness: the duplicate branch on `dbA` (which already holds
"t1") and the fresh branch for "t2". -/
theorem C5_duplicate_logged_not_raised_witness :
    ((add_payment dbA "t1" 8 "100_videos" 15 "USD" 1).1 = dbA ∧
     (add_payment dbA "t1" 8 "100_videos" 15 "USD" 1).2.isSome) ∧
    add_payment dbA "t2" 8 "100_videos" 15 "USD" 1
      = ({ dbA with payments := dbA.payments ++
            [⟨"t2", 8, "100_videos", 15, "USD", "pending", 1, none⟩] },
         none) :=
  ⟨(C5_duplicate_logged_not_raised dbA "t1" 8 "100_videos" 15 "USD" 1).1 (by decide),
   (C5_duplicate_logged_not_raised dbA "t2" 8 "100_videos" 15 "USD" 1).2 rfl⟩

/-- C6: when the expiry watcher fires on a still-pending intent (and the
notification send succeeds) it marks the intent expired and sends the
expiry notice, writing no purchase; on an intent in any other (terminal)
state it changes nothing and sends nothing, whether or not the channel
works. -/
theorem C6_expiry_watcher (db : DB) (u : Nat) (t pkg : String) (now : Nat) (p : Payment)
    (hp : get_payment db t = some p) :
    (p.status = "pending" →
      check_payment_expiry db u t pkg true now
        = (update_payment_status db t "expired" now, [Effect.expiryMsg u pkg]) ∧
      (get_payment (update_payment_status db t "expired" now) t).map Payment.status
        = some "expired" ∧
      (update_payment_status db t "expired" now).purchases = db.purchases) ∧
    (p.status ≠ "pending" → ∀ sendOk : Bool,
      check_payment_expiry db u t pkg sendOk now = (db, [])) := by
  constructor
  · intro hpend
    refine ⟨?_, ?_, rfl⟩
    · simp [check_payment_expiry, hp, hpend]
    · rw [get_payment_update_self, hp]
      rfl
  · intro hnp sendOk
    exact watcher_nonpending_noop db u t pkg sendOk now p hp hnp

/-- C6 witness: the pending branch on `dbA` and the terminal branch on
`dbExpired`. -/
theorem C6_expiry_watcher_witness :
    (check_payment_expiry dbA 7 "t1" "100_videos" true 30
       = (update_payment_status dbA "t1" "expired" 30, [Effect.expiryMsg 7 "100_videos"]) ∧
     (get_payment (update_payment_status dbA "t1" "expired" 30) "t1").map Payment.status
       = some "expired" ∧
     (update_payment_status dbA "t1" "expired" 30).purchases = dbA.purchases) ∧
    check_payment_expiry dbExpired 7 "t1" "100_videos" true 30 = (dbExpired, []) :=
  ⟨(C6_expiry_watcher dbA 7 "t1" "100_videos" 30 payA rfl).1 rfl,
   (C6_expiry_watcher dbExpired 7 "t1" "100_videos" 30
      { payA with status := "expired", completed_at := some 3 } rfl).2 (by decide) true⟩

/-- C7 counterexample: the claimed per-track_id critical section does
not exist. Under the schedule "watcher reads and starts its send; Paid
webhook runs to completion; watcher resumes and writes" — a legal
interleaving, since each task suspends at its `await send_message` —
the run ends with the purchase recorded and the access message sent
(fulfillment happened) AND the expiry notice sent AND the final stored
status "expired", not "completed". -/
theorem C7_counterexample :
    (let r := runSched linksA "t1" 7 "100_videos" 40 [Tid.exp, Tid.web, Tid.web, Tid.exp]
       (WebTask.start, ExpTask.start, ⟨dbA, []⟩)
     (get_payment r.2.2.db "t1").map Payment.status = some "expired" ∧
     r.2.2.db.purchases = [⟨7, "100_videos", 15, 40, "https://invite"⟩] ∧
     r.2.2.effects = [Effect.expiryMsg 7 "100_videos",
                      Effect.accessMsg 7 "100_videos" "https://invite"] ∧
     r.1 = WebTask.finished (WebhookResponse.ok "success") ∧
     r.2.1 = ExpTask.finished) :=
  ⟨rfl, rfl, rfl, rfl, rfl⟩

/-- C7 (amended): the read/decide/write/side-effect sequences of the
"Paid" reconciliation and the expiry watcher are NOT mutually exclusive
— no lock or queue exists, and each task suspends at its message-send
await between its read and its write. Consequently, for every pending
intent (with invite link and price configured) there exists an
interleaving in which fulfillment completes (purchase recorded, access
message sent) and the watcher nevertheless sends the expiry notice and
overwrites the final stored status with "expired". -/
theorem C7_race_both_effects (links : Links) (pkgs : List (String × String)) (db : DB)
    (t invite : String) (p : Payment) (amount : Rat) (now : Nat)
    (hp : get_payment db t = some p) (hpend : p.status = "pending")
    (hpkgs : links.packages = some pkgs)
    (hinv : lookupStr pkgs p.package = some invite) (hne : invite ≠ "")
    (hprice : lookupStr (get_prices links) p.package = some amount) :
    ∃ sched : List Tid,
      (runSched links t p.user_id p.package now sched
          (WebTask.start, ExpTask.start, ⟨db, []⟩)).1
        = WebTask.finished (WebhookResponse.ok "success") ∧
      (runSched links t p.user_id p.package now sched
          (WebTask.start, ExpTask.start, ⟨db, []⟩)).2.1 = ExpTask.finished ∧
      (get_payment (runSched links t p.user_id p.package now sched
          (WebTask.start, ExpTask.start, ⟨db, []⟩)).2.2.db t).map Payment.status
        = some "expired" ∧
      (runSched links t p.user_id p.package now sched
          (WebTask.start, ExpTask.start, ⟨db, []⟩)).2.2.db.purchases
        = db.purchases ++ [⟨p.user_id, p.package, amount, now, invite⟩] ∧
      (runSched links t p.user_id p.package now sched
          (WebTask.start, ExpTask.start, ⟨db, []⟩)).2.2.effects
        = [Effect.expiryMsg p.user_id p.package,
           Effect.accessMsg p.user_id p.package invite] := by
  refine ⟨[Tid.exp, Tid.web, Tid.web, Tid.exp], ?_⟩
  have g1 : (("pending" : String) == "pending") = true := rfl
  have g2 : (("pending" : String) == "completed") = false := rfl
  have g3 : (invite == "") = false := by
    rw [beq_eq_false_iff_ne]
    exact hne
  have hrun : runSched links t p.user_id p.package now [Tid.exp, Tid.web, Tid.web, Tid.exp]
      (WebTask.start, ExpTask.start, ⟨db, []⟩)
      = (WebTask.finished (WebhookResponse.ok "success"), ExpTask.finished,
         ⟨update_payment_status
            (add_purchase (update_payment_status db t "completed" now) p.user_id p.package
              amount invite now) t "expired" now,
          [Effect.expiryMsg p.user_id p.package,
           Effect.accessMsg p.user_id p.package invite]⟩) := by
    simp only [runSched, expStep, webStep, hp, hpend, g1, g2, g3, hpkgs, hinv,
      Option.getD_some, hprice, if_true, if_false, Bool.false_eq_true, List.nil_append,
      List.append_assoc, List.cons_append, List.singleton_append]
  rw [hrun]
  refine ⟨rfl, rfl, ?_, rfl, rfl⟩
  rw [get_payment_update_self, get_payment_add_purchase, get_payment_update_self, hp]
  rfl

/-- C7 witness: the racy interleaving evaluated on the concrete pending
intent `dbA` with the catalog `linksA`. -/
theorem C7_race_both_effects_witness :
    ∃ sched : List Tid,
      (runSched linksA "t1" 7 "100_videos" 40 sched
          (WebTask.start, ExpTask.start, ⟨dbA, []⟩)).1
        = WebTask.finished (WebhookResponse.ok "success") ∧
      (runSched linksA "t1" 7 "100_videos" 40 sched
          (WebTask.start, ExpTask.start, ⟨dbA, []⟩)).2.1 = ExpTask.finished ∧
      (get_payment (runSched linksA "t1" 7 "100_videos" 40 sched
          (WebTask.start, ExpTask.start, ⟨dbA, []⟩)).2.2.db "t1").map Payment.status
        = some "expired" ∧
      (runSched linksA "t1" 7 "100_videos" 40 sched
          (WebTask.start, ExpTask.start, ⟨dbA, []⟩)).2.2.db.purchases
        = dbA.purchases ++ [⟨7, "100_videos", 15, 40, "https://invite"⟩] ∧
      (runSched linksA "t1" 7 "100_videos" 40 sched
          (WebTask.start, ExpTask.start, ⟨dbA, []⟩)).2.2.effects
        = [Effect.expiryMsg 7 "100_videos",
           Effect.accessMsg 7 "100_videos" "https://invite"] :=
  C7_race_both_effects linksA [("100_videos", "https://invite")] dbA "t1" "https://invite"
    payA 15 40 rfl rfl rfl rfl (by decide) rfl

/-- C8 counterexample: a webhook request carrying no secret at all is
fully processed — the handler reads only `trackId` and `status`, so a
request for which any secret comparison would fail (comparing the
configured secret against the empty received secret yields `false`)
still drives the state transition to "completed". -/
theorem C8_counterexample :
    verify_webhook_signature "configured" "" = false ∧
    (oxapay_webhook linksA true 5
        (WebhookRequest.payload (some "t1") (some "Paid")) dbA).1
      = WebhookResponse.ok "success" ∧
    (get_payment
        (oxapay_webhook linksA true 5
          (WebhookRequest.payload (some "t1") (some "Paid")) dbA).2.1
        "t1").map Payment.status = some "completed" :=
  ⟨rfl, rfl, rfl⟩

/-- C8 (amended): the source does contain a verification function —
`verify_webhook_signature`, an exact string comparison that accepts
exactly when both secrets are non-empty and equal — but `oxapay_webhook`
never invokes it: the handler processes any request with a known
trackId (here: a "Paid" report against a pending intent is reconciled
to "completed") with no secret comparison of any kind. -/
theorem C8_no_verification_in_handler :
    (∀ ws rs : String,
      verify_webhook_signature ws rs = true ↔ (ws ≠ "" ∧ rs ≠ "" ∧ ws = rs)) ∧
    (∀ (links : Links) (pkgs : List (String × String)) (db : DB) (t invite : String)
        (p : Payment) (amount : Rat) (now : Nat),
      get_payment db t = some p → p.status = "pending" →
      links.packages = some pkgs →
      lookupStr pkgs p.package = some invite → invite ≠ "" →
      lookupStr (get_prices links) p.package = some amount →
      oxapay_webhook links true now (WebhookRequest.payload (some t) (some "Paid")) db
        = (WebhookResponse.ok "success",
           add_purchase (update_payment_status db t "completed" now) p.user_id p.package
             amount invite now,
           [Effect.accessMsg p.user_id p.package invite])) := by
  constructor
  · intro ws rs
    unfold verify_webhook_signature
    by_cases h1 : ws = ""
    · simp [h1]
    · by_cases h2 : rs = ""
      · simp [h1, h2]
      · simp [h1, h2]
  · intro links pkgs db t invite p amount now hp hpend hpkgs hinv hne hprice
    exact webhook_paid_pending links pkgs db t invite p amount now
      hp hpend hpkgs hinv hne hprice

/-- C8 witness: the characterization of the comparison at concrete
secrets, and the unverified processing of a concrete request. -/
theorem C8_no_verification_in_handler_witness :
    (verify_webhook_signature "s" "s" = true ↔ ("s" ≠ "" ∧ "s" ≠ "" ∧ "s" = "s")) ∧
    oxapay_webhook linksA true 5 (WebhookRequest.payload (some "t1") (some "Paid")) dbA
      = (WebhookResponse.ok "success",
         add_purchase (update_payment_status dbA "t1" "completed" 5) 7 "100_videos"
           15 "https://invite" 5,
         [Effect.accessMsg 7 "100_videos" "https://invite"]) :=
  ⟨C8_no_verification_in_handler.1 "s" "s",
   C8_no_verification_in_handler.2 linksA [("100_videos", "https://invite")] dbA "t1"
     "https://invite" payA 15 5 rfl rfl rfl rfl (by decide) rfl⟩

/-- C9: on a successful fulfillment, `deliver_access` records the
purchase with the amount read from the prices file at delivery time
(`get_prices()[package]`), not the amount stored in the PaymentIntent —
so whenever the stored intent amount differs from the current catalog
price, the recorded purchase amount differs from what the user actually
paid. -/
theorem C9_purchase_amount_from_catalog (links : Links) (pkgs : List (String × String))
    (db : DB) (u : Nat) (pkg invite : String) (price : Rat) (now : Nat) (p : Payment)
    (hpkgs : links.packages = some pkgs) (hinv : lookupStr pkgs pkg = some invite)
    (hne : invite ≠ "") (hprice : lookupStr (get_prices links) pkg = some price) :
    deliver_access links db u pkg true now
      = Except.ok (add_purchase db u pkg price invite now,
          [Effect.accessMsg u pkg invite]) ∧
    (add_purchase db u pkg price invite now).purchases
      = db.purchases ++ [⟨u, pkg, price, now, invite⟩] ∧
    (p.amount ≠ price → (⟨u, pkg, price, now, invite⟩ : Purchase).amount ≠ p.amount) := by
  refine ⟨?_, rfl, ?_⟩
  · simp only [deliver_access, hpkgs, hinv, Option.getD_some]
    rw [if_neg (by simpa using hne)]
    simp [hprice]
  · intro h hc
    exact h hc.symm

/-- C9 witness: the intent `payA` was stored with amount 15, but the
admin has meanwhile raised the catalog price to 20 (`linksB`); delivery
records a purchase of 20, which differs from the 15 the user paid. -/
theorem C9_purchase_amount_from_catalog_witness :
    deliver_access linksB dbA 7 "100_videos" true 9
      = Except.ok (add_purchase dbA 7 "100_videos" 20 "https://invite" 9,
          [Effect.accessMsg 7 "100_videos" "https://invite"]) ∧
    (add_purchase dbA 7 "100_videos" 20 "https://invite" 9).purchases
      = dbA.purchases ++ [⟨7, "100_videos", 20, 9, "https://invite"⟩] ∧
    (⟨7, "100_videos", 20, 9, "https://invite"⟩ : Purchase).amount ≠ payA.amount := by
  have h := C9_purchase_amount_from_catalog linksB [("100_videos", "https://invite")]
    dbA 7 "100_videos" "https://invite" 20 9 payA rfl rfl (by decide) rfl
  exact ⟨h.1, h.2.1, h.2.2 (by norm_num [payA])⟩

/-- C10: the watcher attempts the expiry notification before the status
write (both inside one try block); when the send raises on a
still-pending intent, the status write is skipped — the database is left
exactly as it was and the intent stays "pending"; the one-shot watcher
makes no further attempt. -/
theorem C10_failed_send_leaves_pending (db : DB) (u : Nat) (t pkg : String) (now : Nat)
    (p : Payment) (hp : get_payment db t = some p) (hpend : p.status = "pending") :
    check_payment_expiry db u t pkg false now = (db, []) ∧
    (get_payment (check_payment_expiry db u t pkg false now).1 t).map Payment.status
      = some "pending" := by
  have h1 : check_payment_expiry db u t pkg false now = (db, []) := by
    simp [check_payment_expiry, hp, hpend]
  refine ⟨h1, ?_⟩
  rw [h1]
  show (get_payment db t).map Payment.status = some "pending"
  rw [hp]
  simp [hpend]

/-- C10 witness: the failing send evaluated on the concrete pending
intent `dbA`. -/
theorem C10_failed_send_leaves_pending_witness :
    check_payment_expiry dbA 7 "t1" "100_videos" false 30 = (dbA, []) ∧
    (get_payment (check_payment_expiry dbA 7 "t1" "100_videos" false 30).1 "t1").map
      Payment.status = some "pending" :=
  C10_failed_send_leaves_pending dbA 7 "t1" "100_videos" 30 payA rfl rfl

end VideosBot
